import Mathlib

/-!
Verification of the postgres collector module (collect.go, charts.go,
collect_checkpoints.go) of the go.d.plugin repository.

The Go code is shallowly embedded: the `Postgres` receiver struct becomes an
explicit state record, `collect` and its helper phases become pure functions
from an environment (the results the SQL collaborator would produce for each
query of the cycle) and a pre-state to a result record holding the post-state,
the returned map, the returned error and the list of queries that were issued.
Machine integers are modelled as `Int` with explicit wrapping where Go
arithmetic can overflow, and Go `strconv.ParseInt` is modelled digit by digit,
including its clamp-on-range-error behaviour.
-/

/-! ### String primitives

Go `fmt.Sprintf` applied to the chart/dim templates substitutes the single
`%s` verb, and `strings.HasPrefix` tests a literal prefix.  Both are modelled
on the underlying character lists so that all theorems evaluate by `decide`.
-/

/-- Substitution of the first `%s` verb of a format string, as
`fmt.Sprintf(tmpl, arg)` performs on the chart templates (each template of the
source contains exactly one `%s`). -/
def substChars : List Char → List Char → List Char
  | [], _ => []
  | '%' :: 's' :: rest, arg => arg ++ rest
  | c :: rest, arg => c :: substChars rest arg

/-- `fmt.Sprintf(tmpl, arg)` for a template holding a single `%s` verb. -/
def sprintf1 (tmpl arg : String) : String := ⟨substChars tmpl.data arg.data⟩

/-- Helper of `strHasPrefixGo`: checks the first list is an initial segment of
the second. -/
def hasPrefixChars : List Char → List Char → Bool
  | [], _ => true
  | _ :: _, [] => false
  | a :: as, b :: bs => a = b && hasPrefixChars as bs

/-- Go `strings.HasPrefix(s, p)`. -/
def strHasPrefixGo (s p : String) : Bool := hasPrefixChars p.data s.data

/-! ### The snapshot map

Go `map[string]int64`, built by repeated assignments `mx[k] = v`; modelled as
an association list where an assignment overwrites the entry of an existing
key and appends otherwise. -/

/-- The flat name-to-value map one collection cycle produces. -/
abbrev Snapshot := List (String × Int)

/-- Go map assignment `mx[k] = v`: overwrite the entry of `k` when present,
append otherwise. -/
def mapInsert (m : Snapshot) (k : String) (v : Int) : Snapshot :=
  if m.any (fun kv => kv.1 = k) then
    m.map (fun kv => if kv.1 = k then (k, v) else kv)
  else
    m ++ [(k, v)]

/-- Go map lookup `mx[k]`. -/
def lookupSnap (m : Snapshot) (k : String) : Option Int :=
  (m.find? (fun kv => kv.1 = k)).map (fun kv => kv.2)

/-! ### safeParseInt (collect.go lines 170-173)

`strconv.ParseInt(s, 10, 64)` modelled faithfully: a non-digit character or an
empty digit string is a syntax error with value 0; a value that exceeds the
64-bit range is a range error whose returned value is clamped to the extreme
of the matching sign.  `safeParseInt` discards the error and keeps the
value. -/

/-- The two error classes of Go `strconv` (`ErrSyntax` and `ErrRange`). -/
inductive NumError where
  | syntaxErr
  | rangeErr
deriving DecidableEq

/-- `math.MaxUint64`, the bound `strconv.ParseUint` enforces for bit size 64. -/
def goMaxUint64 : Nat := 2 ^ 64 - 1

/-- The per-digit overflow cutoff of `strconv.ParseUint` for base 10. -/
def goUintCutoff : Nat := goMaxUint64 / 10 + 1

/-- The digit loop of Go `strconv.ParseUint(s, 10, 64)`: a non-digit yields
`(0, ErrSyntax)`; crossing the 64-bit bound yields `(MaxUint64, ErrRange)`. -/
def parseUintLoop : List Char → Nat → Nat × Option NumError
  | [], n => (n, none)
  | c :: rest, n =>
    if '0' ≤ c ∧ c ≤ '9' then
      if goUintCutoff ≤ n then (goMaxUint64, some NumError.rangeErr)
      else
        let n1 := n * 10 + (c.toNat - 48)
        if goMaxUint64 < n1 then (goMaxUint64, some NumError.rangeErr)
        else parseUintLoop rest n1
    else (0, some NumError.syntaxErr)

/-- Go `strconv.ParseUint(s, 10, 64)` on the character list of `s`. -/
def parseUint64 (cs : List Char) : Nat × Option NumError :=
  if cs = [] then (0, some NumError.syntaxErr) else parseUintLoop cs 0

/-- The tail of Go `strconv.ParseInt`: a non-range `ParseUint` error keeps
value 0, then the signed 64-bit cutoffs clamp to `MaxInt64` or `MinInt64`
with `ErrRange` on overflow, otherwise the sign is applied. -/
def applyIntCutoffs (neg : Bool) (r : Nat × Option NumError) : Int × Option NumError :=
  if r.2 = some NumError.syntaxErr then (0, some NumError.syntaxErr)
  else if neg = false ∧ 2 ^ 63 ≤ r.1 then ((2 : Int) ^ 63 - 1, some NumError.rangeErr)
  else if neg = true ∧ 2 ^ 63 < r.1 then (-(2 : Int) ^ 63, some NumError.rangeErr)
  else ((if neg then -(r.1 : Int) else (r.1 : Int)), r.2)

/-- Go `strconv.ParseInt(s, 10, 64)` on the character list of `s`: strip one
optional sign, parse the digits as unsigned, apply the signed cutoffs. -/
def parseInt64Core : List Char → Int × Option NumError
  | [] => (0, some NumError.syntaxErr)
  | c :: rest =>
    applyIntCutoffs (c = '-') (parseUint64 (if c = '-' ∨ c = '+' then rest else c :: rest))

/-- Go `strconv.ParseInt(s, 10, 64)`. -/
def parseInt64 (s : String) : Int × Option NumError := parseInt64Core s.data

/-- collect.go lines 170-173: `v, _ := strconv.ParseInt(s, 10, 64); return v`. -/
def safeParseInt (s : String) : Int := (parseInt64 s).1

/-! ### calcPercentage (collect.go lines 175-180) -/

/-- Reduction of an `Int` into the signed 64-bit range, the wrap-around Go
`int64` arithmetic performs on overflow. -/
def wrap64 (x : Int) : Int := (x + 2 ^ 63) % 2 ^ 64 - 2 ^ 63

/-- collect.go lines 175-180: zero `total` yields 0, otherwise
`value * 100 / total` in `int64` arithmetic (Go division truncates toward
zero; the multiplication and the division wrap on overflow). -/
def calcPercentage (value total : Int) : Int :=
  if total = 0 then 0 else wrap64 (Int.tdiv (wrap64 (value * 100)) total)

/-- The utilization formula exactly as the specification words it:
`value * 100 / max(total, 1)`, with a zero denominator treated as producing
zero.  Stated only to be compared with `calcPercentage` above. -/
def specCalcPercentage (value total : Int) : Int :=
  if total = 0 then 0 else wrap64 (Int.tdiv (wrap64 (value * 100)) (max total 1))

/-! ### Charts (charts.go)

A chart is the registry record of one named series group.  The purely visual
metadata of the source (title, units, family, context, priority, chart type,
dimension display names, rate algorithm) is the thin collaborator layer the
specification excludes; the fields the core logic reads or writes are kept:
the identifier, the dimension identifiers, the labels, and the two lifecycle
flags toggled by `MarkRemove` and `MarkNotCreated`. -/

/-- One chart of the module registry.  `markedRemove`/`created` are the flags
`MarkRemove()` sets and `MarkNotCreated()` clears. -/
structure Chart where
  id : String
  dims : List String
  labels : List (String × String)
  markedRemove : Bool
  created : Bool
deriving DecidableEq

/-- A chart template before binding: flags down, no labels. -/
def mkChartTmpl (id : String) (dims : List String) : Chart :=
  { id := id, dims := dims, labels := [], markedRemove := false, created := false }

/-- charts.go `baseCharts`: the server-scoped charts. -/
def baseCharts : List Chart :=
  [ mkChartTmpl "connections_utilization" ["server_connections_utilization"],
    mkChartTmpl "connections_usage" ["server_connections_available", "server_connections_used"],
    mkChartTmpl "checkpoints" ["checkpoints_timed", "checkpoints_req"],
    mkChartTmpl "checkpoint_time" ["checkpoint_write_time", "checkpoint_sync_time"],
    mkChartTmpl "bgwriter_buffers_written" ["buffers_checkpoint", "buffers_backend", "buffers_clean"],
    mkChartTmpl "bgwriter_buffers_alloc" ["buffers_alloc"],
    mkChartTmpl "bgwriter_maxwritten_clean" ["maxwritten_clean"],
    mkChartTmpl "bgwriter_buffers_backend_fsync" ["buffers_backend_fsync"] ]

/-- charts.go `dbChartsTmpl`: the per-database chart templates, each with one
`%s` placeholder for the database name in the chart id and in every dim id. -/
def dbChartsTmpl : List Chart :=
  [ mkChartTmpl "db_%s_transactions" ["db_%s_xact_commit", "db_%s_xact_rollback"],
    mkChartTmpl "db_%s_connections_utilization" ["db_%s_numbackends_utilization"],
    mkChartTmpl "db_%s_connections" ["db_%s_numbackends"],
    mkChartTmpl "db_%s_buffer_cache" ["db_%s_blks_hit", "db_%s_blks_read"],
    mkChartTmpl "db_%s_read_operations" ["db_%s_tup_returned", "db_%s_tup_fetched"],
    mkChartTmpl "db_%s_write_operations"
      ["db_%s_tup_inserted", "db_%s_tup_deleted", "db_%s_tup_updated"],
    mkChartTmpl "db_%s_conflicts" ["db_%s_conflicts"],
    mkChartTmpl "db_%s_conflicts_stat"
      ["db_%s_confl_tablespace", "db_%s_confl_lock", "db_%s_confl_snapshot",
       "db_%s_confl_bufferpin", "db_%s_confl_deadlock"],
    mkChartTmpl "db_%s_deadlocks" ["db_%s_deadlocks"],
    mkChartTmpl "db_%s_locks_held"
      ["db_%s_lock_mode_AccessShareLock_held", "db_%s_lock_mode_RowShareLock_held",
       "db_%s_lock_mode_RowExclusiveLock_held", "db_%s_lock_mode_ShareUpdateExclusiveLock_held",
       "db_%s_lock_mode_ShareLock_held", "db_%s_lock_mode_ShareRowExclusiveLock_held",
       "db_%s_lock_mode_ExclusiveLock_held", "db_%s_lock_mode_AccessExclusiveLock_held"],
    mkChartTmpl "db_%s_locks_awaited"
      ["db_%s_lock_mode_AccessShareLock_awaited", "db_%s_lock_mode_RowShareLock_awaited",
       "db_%s_lock_mode_RowExclusiveLock_awaited", "db_%s_lock_mode_ShareUpdateExclusiveLock_awaited",
       "db_%s_lock_mode_ShareLock_awaited", "db_%s_lock_mode_ShareRowExclusiveLock_awaited",
       "db_%s_lock_mode_ExclusiveLock_awaited", "db_%s_lock_mode_AccessExclusiveLock_awaited"],
    mkChartTmpl "db_%s_temp_files" ["db_%s_temp_files"],
    mkChartTmpl "db_%s_temp_files_data" ["db_%s_temp_bytes"],
    mkChartTmpl "db_%s_size" ["db_%s_size"] ]

/-- charts.go lines 349-361 `newDatabaseCharts(dbname)`: a copy of every
template with the database name substituted into the chart id and every dim
id, and a `database` label attached. -/
def newDatabaseCharts (dbname : String) : List Chart :=
  dbChartsTmpl.map (fun c =>
    { c with
      id := sprintf1 c.id dbname,
      labels := [("database", dbname)],
      dims := c.dims.map (fun d => sprintf1 d dbname) })

/-- Modelled from the spec: `module.Charts.Add` of the agent framework (not
under src/).  The spec requires materialize to be idempotent — materializing
an already-materialized entity is a no-op — so a chart whose id is already in
the registry is skipped, the rest are appended. -/
def chartsAdd (cs : List Chart) (new : List Chart) : List Chart :=
  new.foldl (fun acc c => if acc.any (fun c0 => c0.id = c.id) then acc else acc ++ [c]) cs

/-! ### The Postgres state (postgres.go receiver struct)

The fields of the receiver struct the three embedded files read or write.
`dbOpen` stands for `p.db != nil`; timestamps and durations are integers on
one common clock. -/

/-- The collector state: the `Postgres` receiver struct. -/
structure Postgres where
  dbOpen : Bool
  serverVersion : Int
  maxConnections : Int
  recheckSettingsTime : Int
  recheckSettingsEvery : Int
  relistDatabaseTime : Int
  relistDatabaseEvery : Int
  databases : List String
  charts : List Chart
deriving DecidableEq

/-- charts.go lines 363-368 `addNewDatabaseCharts(dbname)`: builds the bound
charts and adds them to the registry (materialize). -/
def addNewDatabaseCharts (p : Postgres) (dbname : String) : Postgres :=
  { p with charts := chartsAdd p.charts (newDatabaseCharts dbname) }

/-- charts.go lines 370-378 `removeDatabaseCharts(dbname)`: every chart whose
id starts with `db_<dbname>_` is flagged for removal and marked not created
(retire); nothing is deleted from the registry. -/
def removeDatabaseCharts (p : Postgres) (dbname : String) : Postgres :=
  { p with charts := p.charts.map (fun c =>
      if strHasPrefixGo c.id ("db_" ++ dbname ++ "_") then
        { c with markedRemove := true, created := false }
      else c) }

/-- The fresh names absent from the current registry (`added`). -/
def inventoryAdded (current fresh : List String) : List String :=
  fresh.filter (fun n => ¬ current.contains n)

/-- The current names absent from the fresh listing (`removed`). -/
def inventoryRemoved (current fresh : List String) : List String :=
  current.filter (fun n => ¬ fresh.contains n)

/-- Modelled from the spec: `collectDatabaseList` (referenced at collect.go
line 45 but not under src/), the `reconcileInventory` operation of section
4.3: compute `added = fresh − current` and `removed = current − fresh`,
materialize the charts of every added name, retire the charts of every
removed name, and replace the current name set with the fresh listing. -/
def collectDatabaseList (p : Postgres) (dbs : List String) : Postgres :=
  let added := inventoryAdded p.databases dbs
  let removed := inventoryRemoved p.databases dbs
  let p1 := added.foldl addNewDatabaseCharts p
  let p2 := removed.foldl removeDatabaseCharts p1
  { p2 with databases := dbs }

/-! ### The row flattener (collect.go lines 132-168)

An `sql.Rows` value is modelled by the outcome of `rows.Columns()` and, per
row, the outcome of `rows.Scan`: either a scan error or one nullable textual
value per column (`none` is a database null, `sql.NullString` with
`Valid == false`). -/

deriving instance DecidableEq for Except

/-- The observable behaviour of one `*sql.Rows` result set.  `rowData` holds
the outcome of each `rows.Scan`; the end of the list is the point where
`rows.Next()` returns false.  `Next()` can return false both on clean
exhaustion and because iteration failed (a driver error or the per-query
deadline expiring mid-iteration); `rowsErr` is the pending error that
`rows.Err()` reports in the latter case (`none` on clean exhaustion). -/
structure Rows where
  columnsResult : Except String (List String)
  rowData : List (Except String (List (Option String)))
  rowsErr : Option String
deriving DecidableEq

/-- collect.go lines 154-160 `valueToString`: the string of a valid
`sql.NullString`, the empty string for a null (or non-`NullString`) value. -/
def valueToString (value : Option String) : String := value.getD ""

/-- The row loop of `collectRows`: scan each row, then invoke the assignment
callback once per column with the column name and the textual value.  The
callback is a state transformer (in the source it is a closure that writes
into the shared map).  A scan failure stops the loop and is returned, with
the assignments of the rows already read kept. -/
def collectRowsLoop (assign : Snapshot → String → String → Snapshot)
    (columns : List String) :
    List (Except String (List (Option String))) → Snapshot → Snapshot × Option String
  | [], mx => (mx, none)
  | Except.error e :: _, mx => (mx, some e)
  | Except.ok values :: rest, mx =>
    collectRowsLoop assign columns rest
      ((columns.zip values).foldl
        (fun m cv => assign m cv.1 (valueToString cv.2)) mx)

/-- collect.go lines 132-152 `collectRows`: nil callback is a no-op, a
`Columns()` failure is returned before any row is read, otherwise the row
loop runs until `rows.Next()` returns false.  The source never calls
`rows.Err()` after the loop, so the pending iteration error `rowsErr` is
never consulted here either. -/
def collectRows (assign : Option (Snapshot → String → String → Snapshot))
    (r : Rows) (mx : Snapshot) : Snapshot × Option String :=
  match assign with
  | none => (mx, none)
  | some f =>
    match r.columnsResult with
    | Except.error e => (mx, some e)
    | Except.ok columns => collectRowsLoop f columns r.rowData mx

/-- The assignment closure of `collectCheckpoints`:
`mx[column] = safeParseInt(value)`. -/
def assignParsed (mx : Snapshot) (column value : String) : Snapshot :=
  mapInsert mx column (safeParseInt value)

/-- collect_checkpoints.go lines 387-399 `collectCheckpoints`: run the
checkpoints query (its outcome is supplied by the environment), then flatten
every row into the shared map through `safeParseInt`. -/
def collectCheckpoints (queryResult : Except String Rows) (mx : Snapshot) :
    Snapshot × Option String :=
  match queryResult with
  | Except.error e => (mx, some e)
  | Except.ok r => collectRows (some assignParsed) r mx

/-! ### The collection orchestrator (collect.go lines 13-73)

The bodies of `collectConnection`, `collectDatabaseStats`,
`collectDatabaseConflicts` and `collectDatabaseLocks` are not under src/;
each is abstracted by the assignments it performs on the shared map before
returning, and its returned error — the best-effort-assign-then-abort
contract of the flattener they all share.  `collectCheckpoints` is under
src/ and is embedded concretely above. -/

/-- The observable behaviour of one absent collection step: the assignments
it performed on the shared map, then the error it returned. -/
structure StepOutcome where
  writes : List (String × Int)
  failure : Option String
deriving DecidableEq

/-- Apply an abstracted collection step to the shared map. -/
def runAbstractStep (o : StepOutcome) (mx : Snapshot) : Snapshot × Option String :=
  (o.writes.foldl (fun m kv => mapInsert m kv.1 kv.2) mx, o.failure)

/-- The queries a cycle can issue, in the order of collect.go. -/
inductive Query where
  | serverVersion
  | settingsMaxConnections
  | databaseList
  | serverConnections
  | checkpoints
  | databaseStats
  | databaseConflicts
  | databaseLocks
deriving DecidableEq

/-- One cycle of the SQL collaborator: the current time and the outcome every
query of the cycle would produce if issued. -/
structure CollectEnv where
  openConnection : Except String Unit
  now : Int
  queryServerVersion : Except String Int
  querySettingsMaxConnections : Except String Int
  queryDatabaseList : Except String (List String)
  connectionStep : StepOutcome
  checkpointsRows : Except String Rows
  databaseStatsStep : StepOutcome
  databaseConflictsStep : StepOutcome
  databaseLocksStep : StepOutcome

/-- The settings refresh window has elapsed: the gate of collect.go line 30,
`now.Sub(p.recheckSettingsTime) > p.recheckSettingsEvery`. -/
def settingsElapsed (env : CollectEnv) (p : Postgres) : Prop :=
  env.now - p.recheckSettingsTime > p.recheckSettingsEvery

/-- The inventory refresh window has elapsed: the gate of collect.go line 39,
`now.Sub(p.relistDatabaseTime) > p.relistDatabaseEvery`. -/
def relistElapsed (env : CollectEnv) (p : Postgres) : Prop :=
  env.now - p.relistDatabaseTime > p.relistDatabaseEvery

instance (env : CollectEnv) (p : Postgres) : Decidable (settingsElapsed env p) := by
  unfold settingsElapsed; infer_instance

instance (env : CollectEnv) (p : Postgres) : Decidable (relistElapsed env p) := by
  unfold relistElapsed; infer_instance

/-- The outcome of one `collect()` call: the post-state, the returned map
(`none` is the Go nil map of the early-failure returns), the returned error,
and the queries that were issued. -/
structure CollectResult where
  state : Postgres
  mx : Option Snapshot
  errMsg : Option String
  trace : List Query
deriving DecidableEq

/-- `fmt.Errorf("<label>: %v", err)`. -/
def wrapErr (label e : String) : String := label ++ ": " ++ e

/-- collect.go lines 48-72: the five collection steps in their fixed order,
each writing into the one shared map; the first failing step returns the
shared map as populated so far together with a wrapped error.  Line 55 wraps
a `collectCheckpoints` failure in the database-conflicts label, exactly as
the source does. -/
def collectPhaseSteps (env : CollectEnv) (p : Postgres) (tr : List Query) : CollectResult :=
  let r1 := runAbstractStep env.connectionStep []
  let tr := tr ++ [Query.serverConnections]
  match r1.2 with
  | some e => ⟨p, some r1.1, some (wrapErr "querying server connections error" e), tr⟩
  | none =>
    let r2 := collectCheckpoints env.checkpointsRows r1.1
    let tr := tr ++ [Query.checkpoints]
    match r2.2 with
    | some e => ⟨p, some r2.1, some (wrapErr "querying database conflicts error" e), tr⟩
    | none =>
      let r3 := runAbstractStep env.databaseStatsStep r2.1
      let tr := tr ++ [Query.databaseStats]
      match r3.2 with
      | some e => ⟨p, some r3.1, some (wrapErr "querying database stats error" e), tr⟩
      | none =>
        let r4 := runAbstractStep env.databaseConflictsStep r3.1
        let tr := tr ++ [Query.databaseConflicts]
        match r4.2 with
        | some e => ⟨p, some r4.1, some (wrapErr "querying database conflicts error" e), tr⟩
        | none =>
          let r5 := runAbstractStep env.databaseLocksStep r4.1
          let tr := tr ++ [Query.databaseLocks]
          match r5.2 with
          | some e => ⟨p, some r5.1, some (wrapErr "querying database locks error" e), tr⟩
          | none => ⟨p, some r5.1, none, tr⟩

/-- collect.go lines 39-46: the database-inventory refresh window.  The
timestamp is advanced before the query; a query failure aborts the cycle with
a nil map; a success reconciles the registry. -/
def collectPhaseRelist (env : CollectEnv) (p : Postgres) (tr : List Query) : CollectResult :=
  if relistElapsed env p then
    let p := { p with relistDatabaseTime := env.now }
    let tr := tr ++ [Query.databaseList]
    match env.queryDatabaseList with
    | Except.error e => ⟨p, none, some (wrapErr "querying database list error" e), tr⟩
    | Except.ok dbs => collectPhaseSteps env (collectDatabaseList p dbs) tr
  else collectPhaseSteps env p tr

/-- collect.go lines 30-37: the settings refresh window.  The timestamp is
advanced before the query; a query failure aborts the cycle with a nil map; a
success replaces the cached max-connections value. -/
def collectPhaseSettings (env : CollectEnv) (p : Postgres) (tr : List Query) : CollectResult :=
  if settingsElapsed env p then
    let p := { p with recheckSettingsTime := env.now }
    let tr := tr ++ [Query.settingsMaxConnections]
    match env.querySettingsMaxConnections with
    | Except.error e =>
      ⟨p, none, some (wrapErr "querying settings max connections error" e), tr⟩
    | Except.ok v => collectPhaseRelist env { p with maxConnections := v } tr
  else collectPhaseRelist env p tr

/-- collect.go lines 20-26: the one-time server version probe, issued only
while the cached version is zero. -/
def collectPhaseVersion (env : CollectEnv) (p : Postgres) (tr : List Query) : CollectResult :=
  if p.serverVersion = 0 then
    let tr := tr ++ [Query.serverVersion]
    match env.queryServerVersion with
    | Except.error e => ⟨p, none, some (wrapErr "querying server version error" e), tr⟩
    | Except.ok v => collectPhaseSettings env { p with serverVersion := v } tr
  else collectPhaseSettings env p tr

/-- collect.go lines 13-73 `collect()`: open the connection if absent, then
run the version probe, the settings window, the inventory window and the
five collection steps in order. -/
def collect (env : CollectEnv) (p : Postgres) : CollectResult :=
  if p.dbOpen then collectPhaseVersion env p []
  else
    match env.openConnection with
    | Except.error e => ⟨p, none, some e, []⟩
    | Except.ok _ => collectPhaseVersion env { p with dbOpen := true } []

/-! ### C2 and C9: the registry reconciler and the retire operation -/

lemma inventoryAdded_self (B : List String) : inventoryAdded B B = [] := by
  apply List.filter_eq_nil_iff.mpr
  intro a ha
  simp [List.elem_iff, ha]

lemma inventoryRemoved_self (B : List String) : inventoryRemoved B B = [] := by
  apply List.filter_eq_nil_iff.mpr
  intro a ha
  simp [List.elem_iff, ha]

lemma collectDatabaseList_self (q : Postgres) (B : List String) (hq : q.databases = B) :
    collectDatabaseList q B = q := by
  obtain ⟨d, sv, mc, rst, rse, rlt, rle, dbs, cs⟩ := q
  replace hq : dbs = B := hq
  subst hq
  simp [collectDatabaseList, inventoryAdded_self, inventoryRemoved_self]

/--
**C2.**  The inventory reconciler: after `reconcileInventory(A)` then
`reconcileInventory(B)` the registry name set is exactly `B`; the second call
is, by the computed deltas, the materialization (`addNewDatabaseCharts`) of
exactly the names of `B − A` followed by the retirement
(`removeDatabaseCharts`) of exactly the names of `A − B`; reconciling the
same set twice leaves empty deltas and does not change the state
(idempotence).
-/
theorem c2_reconcile_inventory (p : Postgres) (A B : List String) :
    (collectDatabaseList (collectDatabaseList p A) B).databases = B ∧
    collectDatabaseList (collectDatabaseList p A) B =
      { (inventoryRemoved A B).foldl removeDatabaseCharts
          ((inventoryAdded A B).foldl addNewDatabaseCharts (collectDatabaseList p A)) with
        databases := B } ∧
    (∀ n, n ∈ inventoryAdded A B ↔ (n ∈ B ∧ n ∉ A)) ∧
    (∀ n, n ∈ inventoryRemoved A B ↔ (n ∈ A ∧ n ∉ B)) ∧
    inventoryAdded B B = [] ∧ inventoryRemoved B B = [] ∧
    collectDatabaseList (collectDatabaseList (collectDatabaseList p A) B) B =
      collectDatabaseList (collectDatabaseList p A) B := by
  refine ⟨rfl, rfl, ?_, ?_, inventoryAdded_self B, inventoryRemoved_self B,
    collectDatabaseList_self _ B rfl⟩
  · intro n
    simp [inventoryAdded, List.mem_filter, List.elem_iff]
  · intro n
    simp [inventoryRemoved, List.mem_filter, List.elem_iff]

/-- **C2, witness**: a concrete run with `A = [postgres, production]` and
`B = [postgres]` retires exactly `production`. -/
theorem c2_reconcile_inventory_witness :
    (collectDatabaseList
      (collectDatabaseList
        { dbOpen := true, serverVersion := 140004, maxConnections := 100,
          recheckSettingsTime := 0, recheckSettingsEvery := 600,
          relistDatabaseTime := 0, relistDatabaseEvery := 600,
          databases := [], charts := [] }
        ["postgres", "production"]) ["postgres"]).databases = ["postgres"] ∧
    inventoryRemoved ["postgres", "production"] ["postgres"] = ["production"] ∧
    inventoryAdded ["postgres", "production"] ["postgres"] = [] :=
  ⟨(c2_reconcile_inventory
      { dbOpen := true, serverVersion := 140004, maxConnections := 100,
        recheckSettingsTime := 0, recheckSettingsEvery := 600,
        relistDatabaseTime := 0, relistDatabaseEvery := 600,
        databases := [], charts := [] }
      ["postgres", "production"] ["postgres"]).1,
   by decide, by decide⟩

/--
**C9, counterexample.**  The claim says `retire(entityName)` marks exactly
the series previously bound to that entity and leaves the series of every
other entity unchanged.  But retirement matches by the string prefix
`db_<entityName>_`, so with the two databases `a` and `a_b` materialized,
retiring `a` also marks the chart `db_a_b_transactions`, a series bound to
the distinct entity `a_b` (previously unmarked).
-/
theorem c9_counterexample :
    ((newDatabaseCharts "a_b").map Chart.id).contains "db_a_b_transactions" = true ∧
    (∀ c ∈ newDatabaseCharts "a" ++ newDatabaseCharts "a_b",
      c.id = "db_a_b_transactions" → c.markedRemove = false) ∧
    (∃ c ∈ (removeDatabaseCharts
        { dbOpen := true, serverVersion := 140004, maxConnections := 100,
          recheckSettingsTime := 0, recheckSettingsEvery := 600,
          relistDatabaseTime := 0, relistDatabaseEvery := 600,
          databases := ["a", "a_b"],
          charts := newDatabaseCharts "a" ++ newDatabaseCharts "a_b" } "a").charts,
      c.id = "db_a_b_transactions" ∧ c.markedRemove = true) := by decide

/--
**C9, amended.**  `retire(dbname)` marks exactly the charts whose id starts
with `db_<dbname>_`: it preserves the chart ids and their number (two-phase
removal: flags are set, nothing is deleted), leaves every chart without that
prefix untouched, flags every chart with that prefix as scheduled for
removal and not created, is a no-op when no chart carries the prefix (an
entity that was never materialized), and touches no other state.  A series
of a different entity is also marked when its id happens to carry the
prefix, e.g. entity `a_b` when retiring `a`.
-/
theorem c9_retire (p : Postgres) (dbname : String) :
    ((removeDatabaseCharts p dbname).charts.map Chart.id = p.charts.map Chart.id) ∧
    ((removeDatabaseCharts p dbname).charts.length = p.charts.length) ∧
    (∀ c ∈ p.charts, strHasPrefixGo c.id ("db_" ++ dbname ++ "_") = false →
      c ∈ (removeDatabaseCharts p dbname).charts) ∧
    (∀ c ∈ p.charts, strHasPrefixGo c.id ("db_" ++ dbname ++ "_") = true →
      { c with markedRemove := true, created := false } ∈
        (removeDatabaseCharts p dbname).charts) ∧
    ((∀ c ∈ p.charts, strHasPrefixGo c.id ("db_" ++ dbname ++ "_") = false) →
      removeDatabaseCharts p dbname = p) ∧
    (removeDatabaseCharts p dbname).databases = p.databases ∧
    (removeDatabaseCharts p dbname).serverVersion = p.serverVersion := by
  refine ⟨?_, ?_, ?_, ?_, ?_, rfl, rfl⟩
  · simp only [removeDatabaseCharts, List.map_map]
    apply List.map_eq_map_iff.mpr
    intro c _
    simp only [Function.comp_apply]
    split <;> rfl
  · simp [removeDatabaseCharts]
  · intro c hc hpre
    simp only [removeDatabaseCharts]
    refine List.mem_map.mpr ⟨c, hc, ?_⟩
    rw [if_neg (by simp [hpre])]
  · intro c hc hpre
    simp only [removeDatabaseCharts]
    refine List.mem_map.mpr ⟨c, hc, ?_⟩
    rw [if_pos hpre]
  · intro hall
    have hmap : p.charts.map (fun c =>
        if strHasPrefixGo c.id ("db_" ++ dbname ++ "_") then
          { c with markedRemove := true, created := false }
        else c) = p.charts.map id := by
      apply List.map_eq_map_iff.mpr
      intro c hc
      rw [if_neg (by simp [hall c hc])]
      rfl
    simp only [removeDatabaseCharts, hmap, List.map_id]

/-- **C9, amended, witness**: retiring an entity with no matching chart is a
no-op on a concrete state holding only the server-scoped charts. -/
theorem c9_retire_witness :
    removeDatabaseCharts
      { dbOpen := true, serverVersion := 140004, maxConnections := 100,
        recheckSettingsTime := 0, recheckSettingsEvery := 600,
        relistDatabaseTime := 0, relistDatabaseEvery := 600,
        databases := [], charts := baseCharts } "production" =
      { dbOpen := true, serverVersion := 140004, maxConnections := 100,
        recheckSettingsTime := 0, recheckSettingsEvery := 600,
        relistDatabaseTime := 0, relistDatabaseEvery := 600,
        databases := [], charts := baseCharts } :=
  (c9_retire
    { dbOpen := true, serverVersion := 140004, maxConnections := 100,
      recheckSettingsTime := 0, recheckSettingsEvery := 600,
      relistDatabaseTime := 0, relistDatabaseEvery := 600,
      databases := [], charts := baseCharts } "production").2.2.2.2.1 (by decide)

/-! ### Reachability and gating conditions of the phases -/

/-- The connection-open step passes: a session exists or opening succeeds. -/
def openOk (env : CollectEnv) (p : Postgres) : Prop :=
  p.dbOpen = true ∨ env.openConnection = Except.ok ()

/-- The version probe passes: already cached, or the query succeeds. -/
def versionOk (env : CollectEnv) (p : Postgres) : Prop :=
  p.serverVersion ≠ 0 ∨ env.queryServerVersion.isOk = true

/-- The settings phase passes: window closed, or the query succeeds. -/
def settingsOk (env : CollectEnv) (p : Postgres) : Prop :=
  ¬ settingsElapsed env p ∨ env.querySettingsMaxConnections.isOk = true

instance (env : CollectEnv) (p : Postgres) : Decidable (openOk env p) := by
  unfold openOk; infer_instance

instance (env : CollectEnv) (p : Postgres) : Decidable (versionOk env p) := by
  unfold versionOk; infer_instance

instance (env : CollectEnv) (p : Postgres) : Decidable (settingsOk env p) := by
  unfold settingsOk; infer_instance

/-! ### Helper lemmas about the phases -/

/-- The queries the five collection steps can issue. -/
def stepQueries : List Query :=
  [Query.serverConnections, Query.checkpoints, Query.databaseStats,
   Query.databaseConflicts, Query.databaseLocks]

lemma collectRowsLoop_snd (f : Snapshot → String → String → Snapshot)
    (cols : List String) :
    ∀ (rs : List (Except String (List (Option String)))) (mx mx' : Snapshot),
      (collectRowsLoop f cols rs mx).2 = (collectRowsLoop f cols rs mx').2 := by
  intro rs
  induction rs with
  | nil => intro mx mx'; rfl
  | cons r rest ih =>
    intro mx mx'
    cases r with
    | error e => rfl
    | ok vals => simp only [collectRowsLoop]; exact ih _ _

/-- The error component of the checkpoints step, independent of the shared
map it writes into. -/
def checkpointsFailure (q : Except String Rows) : Option String :=
  (collectCheckpoints q []).2

lemma collectCheckpoints_snd (q : Except String Rows) (mx : Snapshot) :
    (collectCheckpoints q mx).2 = checkpointsFailure q := by
  cases q with
  | error e => rfl
  | ok r =>
    cases hc : r.columnsResult with
    | error e => simp [checkpointsFailure, collectCheckpoints, collectRows, hc]
    | ok cols =>
      simp only [checkpointsFailure, collectCheckpoints, collectRows, hc]
      exact collectRowsLoop_snd _ _ _ _ _

lemma collectPhaseSteps_state (env : CollectEnv) (p : Postgres) (tr : List Query) :
    (collectPhaseSteps env p tr).state = p := by
  unfold collectPhaseSteps
  simp only [runAbstractStep, collectCheckpoints_snd]
  rcases env.connectionStep.failure with _ | e1 <;>
    rcases checkpointsFailure env.checkpointsRows with _ | e2 <;>
    rcases env.databaseStatsStep.failure with _ | e3 <;>
    rcases env.databaseConflictsStep.failure with _ | e4 <;>
    rcases env.databaseLocksStep.failure with _ | e5 <;>
    rfl

lemma collectPhaseSteps_mx (env : CollectEnv) (p : Postgres) (tr : List Query) :
    (collectPhaseSteps env p tr).mx ≠ none := by
  unfold collectPhaseSteps
  simp only [runAbstractStep, collectCheckpoints_snd]
  rcases env.connectionStep.failure with _ | e1 <;>
    rcases checkpointsFailure env.checkpointsRows with _ | e2 <;>
    rcases env.databaseStatsStep.failure with _ | e3 <;>
    rcases env.databaseConflictsStep.failure with _ | e4 <;>
    rcases env.databaseLocksStep.failure with _ | e5 <;>
    simp

lemma collectPhaseSteps_trace (env : CollectEnv) (p : Postgres) (tr : List Query) :
    (collectPhaseSteps env p tr).trace ⊆ tr ++ stepQueries := by
  unfold collectPhaseSteps
  simp only [runAbstractStep, collectCheckpoints_snd]
  rcases env.connectionStep.failure with _ | e1 <;>
    rcases checkpointsFailure env.checkpointsRows with _ | e2 <;>
    rcases env.databaseStatsStep.failure with _ | e3 <;>
    rcases env.databaseConflictsStep.failure with _ | e4 <;>
    rcases env.databaseLocksStep.failure with _ | e5 <;>
    (intro q hq
     simp only [List.mem_append, List.mem_singleton, List.mem_cons,
       List.not_mem_nil, stepQueries] at hq ⊢
     tauto)

lemma collectPhaseSteps_errMsg_none (env : CollectEnv) (p : Postgres) (tr : List Query) :
    (collectPhaseSteps env p tr).errMsg = none ↔
      (env.connectionStep.failure = none ∧
       checkpointsFailure env.checkpointsRows = none ∧
       env.databaseStatsStep.failure = none ∧
       env.databaseConflictsStep.failure = none ∧
       env.databaseLocksStep.failure = none) := by
  unfold collectPhaseSteps
  simp only [runAbstractStep, collectCheckpoints_snd]
  rcases env.connectionStep.failure with _ | e1 <;>
    rcases checkpointsFailure env.checkpointsRows with _ | e2 <;>
    rcases env.databaseStatsStep.failure with _ | e3 <;>
    rcases env.databaseConflictsStep.failure with _ | e4 <;>
    rcases env.databaseLocksStep.failure with _ | e5 <;>
    simp

/-! #### Unfolding lemmas: one per branch of each phase -/

lemma settingsPhase_skip (env : CollectEnv) (p : Postgres) (tr : List Query)
    (h : ¬ settingsElapsed env p) :
    collectPhaseSettings env p tr = collectPhaseRelist env p tr := by
  simp only [collectPhaseSettings]
  rw [if_neg h]

lemma settingsPhase_ok (env : CollectEnv) (p : Postgres) (tr : List Query) (v : Int)
    (h : settingsElapsed env p) (hv : env.querySettingsMaxConnections = Except.ok v) :
    collectPhaseSettings env p tr =
      collectPhaseRelist env { p with recheckSettingsTime := env.now, maxConnections := v }
        (tr ++ [Query.settingsMaxConnections]) := by
  simp only [collectPhaseSettings]
  rw [if_pos h, hv]

lemma settingsPhase_fail (env : CollectEnv) (p : Postgres) (tr : List Query) (e : String)
    (h : settingsElapsed env p) (hv : env.querySettingsMaxConnections = Except.error e) :
    collectPhaseSettings env p tr =
      ⟨{ p with recheckSettingsTime := env.now }, none,
        some (wrapErr "querying settings max connections error" e),
        tr ++ [Query.settingsMaxConnections]⟩ := by
  simp only [collectPhaseSettings]
  rw [if_pos h, hv]

lemma relistPhase_skip (env : CollectEnv) (p : Postgres) (tr : List Query)
    (h : ¬ relistElapsed env p) :
    collectPhaseRelist env p tr = collectPhaseSteps env p tr := by
  simp only [collectPhaseRelist]
  rw [if_neg h]

lemma relistPhase_ok (env : CollectEnv) (p : Postgres) (tr : List Query) (dbs : List String)
    (h : relistElapsed env p) (hd : env.queryDatabaseList = Except.ok dbs) :
    collectPhaseRelist env p tr =
      collectPhaseSteps env (collectDatabaseList { p with relistDatabaseTime := env.now } dbs)
        (tr ++ [Query.databaseList]) := by
  simp only [collectPhaseRelist]
  rw [if_pos h, hd]

lemma relistPhase_fail (env : CollectEnv) (p : Postgres) (tr : List Query) (e : String)
    (h : relistElapsed env p) (hd : env.queryDatabaseList = Except.error e) :
    collectPhaseRelist env p tr =
      ⟨{ p with relistDatabaseTime := env.now }, none,
        some (wrapErr "querying database list error" e), tr ++ [Query.databaseList]⟩ := by
  simp only [collectPhaseRelist]
  rw [if_pos h, hd]

lemma versionPhase_skip (env : CollectEnv) (p : Postgres) (tr : List Query)
    (h : ¬ p.serverVersion = 0) :
    collectPhaseVersion env p tr = collectPhaseSettings env p tr := by
  simp only [collectPhaseVersion]
  rw [if_neg h]

lemma versionPhase_ok (env : CollectEnv) (p : Postgres) (tr : List Query) (v : Int)
    (h : p.serverVersion = 0) (hv : env.queryServerVersion = Except.ok v) :
    collectPhaseVersion env p tr =
      collectPhaseSettings env { p with serverVersion := v } (tr ++ [Query.serverVersion]) := by
  simp only [collectPhaseVersion]
  rw [if_pos h, hv]

lemma versionPhase_fail (env : CollectEnv) (p : Postgres) (tr : List Query) (e : String)
    (h : p.serverVersion = 0) (hv : env.queryServerVersion = Except.error e) :
    collectPhaseVersion env p tr =
      ⟨p, none, some (wrapErr "querying server version error" e), tr ++ [Query.serverVersion]⟩ := by
  simp only [collectPhaseVersion]
  rw [if_pos h, hv]

lemma collect_sessionLive (env : CollectEnv) (p : Postgres) (h : p.dbOpen = true) :
    collect env p = collectPhaseVersion env p [] := by
  simp only [collect]
  rw [if_pos h]

lemma collect_sessionNew (env : CollectEnv) (p : Postgres) (h : p.dbOpen = false)
    (ho : env.openConnection = Except.ok ()) :
    collect env p = collectPhaseVersion env { p with dbOpen := true } [] := by
  simp only [collect]
  rw [if_neg (by simp [h]), ho]

lemma collect_sessionFail (env : CollectEnv) (p : Postgres) (e : String)
    (h : p.dbOpen = false) (ho : env.openConnection = Except.error e) :
    collect env p = ⟨p, none, some e, []⟩ := by
  simp only [collect]
  rw [if_neg (by simp [h]), ho]

/-! #### Field preservation lemmas -/

lemma foldl_chartsOnly (f : Postgres → String → Postgres)
    (hf : ∀ p n, ∃ cs, f p n = { p with charts := cs }) :
    ∀ (l : List String) (p : Postgres), ∃ cs, l.foldl f p = { p with charts := cs } := by
  intro l
  induction l with
  | nil => intro p; exact ⟨p.charts, rfl⟩
  | cons n l ih =>
    intro p
    obtain ⟨cs, hcs⟩ := hf p n
    obtain ⟨cs', hcs'⟩ := ih (f p n)
    refine ⟨cs', ?_⟩
    rw [List.foldl_cons, hcs', hcs]

lemma collectDatabaseList_chartsOnly (p : Postgres) (dbs : List String) :
    ∃ cs, collectDatabaseList p dbs = { p with charts := cs, databases := dbs } := by
  obtain ⟨cs1, h1⟩ :=
    foldl_chartsOnly addNewDatabaseCharts (fun p n => ⟨_, rfl⟩)
      (inventoryAdded p.databases dbs) p
  obtain ⟨cs2, h2⟩ :=
    foldl_chartsOnly removeDatabaseCharts (fun p n => ⟨_, rfl⟩)
      (inventoryRemoved p.databases dbs)
      ((inventoryAdded p.databases dbs).foldl addNewDatabaseCharts p)
  refine ⟨cs2, ?_⟩
  simp only [collectDatabaseList]
  rw [h2, h1]

lemma collectPhaseRelist_state_fields (env : CollectEnv) (p : Postgres) (tr : List Query) :
    (collectPhaseRelist env p tr).state.dbOpen = p.dbOpen ∧
    (collectPhaseRelist env p tr).state.serverVersion = p.serverVersion ∧
    (collectPhaseRelist env p tr).state.maxConnections = p.maxConnections ∧
    (collectPhaseRelist env p tr).state.recheckSettingsTime = p.recheckSettingsTime ∧
    (collectPhaseRelist env p tr).state.recheckSettingsEvery = p.recheckSettingsEvery ∧
    (collectPhaseRelist env p tr).state.relistDatabaseEvery = p.relistDatabaseEvery := by
  by_cases h : relistElapsed env p
  · cases hd : env.queryDatabaseList with
    | error e => rw [relistPhase_fail env p tr e h hd]; exact ⟨rfl, rfl, rfl, rfl, rfl, rfl⟩
    | ok dbs =>
      rw [relistPhase_ok env p tr dbs h hd, collectPhaseSteps_state]
      obtain ⟨cs, hc⟩ := collectDatabaseList_chartsOnly { p with relistDatabaseTime := env.now } dbs
      rw [hc]
      exact ⟨rfl, rfl, rfl, rfl, rfl, rfl⟩
  · rw [relistPhase_skip env p tr h, collectPhaseSteps_state]
    exact ⟨rfl, rfl, rfl, rfl, rfl, rfl⟩

lemma collectPhaseSettings_state_fields (env : CollectEnv) (p : Postgres) (tr : List Query) :
    (collectPhaseSettings env p tr).state.dbOpen = p.dbOpen ∧
    (collectPhaseSettings env p tr).state.serverVersion = p.serverVersion ∧
    (collectPhaseSettings env p tr).state.recheckSettingsEvery = p.recheckSettingsEvery ∧
    (collectPhaseSettings env p tr).state.relistDatabaseEvery = p.relistDatabaseEvery := by
  by_cases h : settingsElapsed env p
  · cases hv : env.querySettingsMaxConnections with
    | error e => rw [settingsPhase_fail env p tr e h hv]; exact ⟨rfl, rfl, rfl, rfl⟩
    | ok v =>
      rw [settingsPhase_ok env p tr v h hv]
      obtain ⟨h1, h2, _, _, h5, h6⟩ :=
        collectPhaseRelist_state_fields env
          { p with recheckSettingsTime := env.now, maxConnections := v }
          (tr ++ [Query.settingsMaxConnections])
      exact ⟨h1, h2, h5, h6⟩
  · rw [settingsPhase_skip env p tr h]
    obtain ⟨h1, h2, _, _, h5, h6⟩ := collectPhaseRelist_state_fields env p tr
    exact ⟨h1, h2, h5, h6⟩

/-! #### Trace lemmas: which queries a phase can issue, and what gates them -/

lemma collectPhaseRelist_trace (env : CollectEnv) (p : Postgres) (tr : List Query) :
    (collectPhaseRelist env p tr).trace ⊆ tr ++ Query.databaseList :: stepQueries := by
  by_cases h : relistElapsed env p
  · cases hd : env.queryDatabaseList with
    | error e =>
      rw [relistPhase_fail env p tr e h hd]
      intro q hq; simp at hq ⊢; tauto
    | ok dbs =>
      rw [relistPhase_ok env p tr dbs h hd]
      intro q hq
      have h2 := collectPhaseSteps_trace env
        (collectDatabaseList { p with relistDatabaseTime := env.now } dbs)
        (tr ++ [Query.databaseList]) hq
      simp at h2 ⊢; tauto
  · rw [relistPhase_skip env p tr h]
    intro q hq
    have h2 := collectPhaseSteps_trace env p tr hq
    simp at h2 ⊢; tauto

lemma collectPhaseSettings_trace (env : CollectEnv) (p : Postgres) (tr : List Query) :
    (collectPhaseSettings env p tr).trace ⊆
      tr ++ Query.settingsMaxConnections :: Query.databaseList :: stepQueries := by
  by_cases h : settingsElapsed env p
  · cases hv : env.querySettingsMaxConnections with
    | error e =>
      rw [settingsPhase_fail env p tr e h hv]
      intro q hq; simp at hq ⊢; tauto
    | ok v =>
      rw [settingsPhase_ok env p tr v h hv]
      intro q hq
      have h2 := collectPhaseRelist_trace env
        { p with recheckSettingsTime := env.now, maxConnections := v }
        (tr ++ [Query.settingsMaxConnections]) hq
      simp at h2 ⊢; tauto
  · rw [settingsPhase_skip env p tr h]
    intro q hq
    have h2 := collectPhaseRelist_trace env p tr hq
    simp at h2 ⊢; tauto

lemma collectPhaseVersion_trace (env : CollectEnv) (p : Postgres) (tr : List Query) :
    (collectPhaseVersion env p tr).trace ⊆
      tr ++ Query.serverVersion :: Query.settingsMaxConnections ::
        Query.databaseList :: stepQueries := by
  by_cases h : p.serverVersion = 0
  · cases hv : env.queryServerVersion with
    | error e =>
      rw [versionPhase_fail env p tr e h hv]
      intro q hq; simp at hq ⊢; tauto
    | ok v =>
      rw [versionPhase_ok env p tr v h hv]
      intro q hq
      have h2 := collectPhaseSettings_trace env { p with serverVersion := v }
        (tr ++ [Query.serverVersion]) hq
      simp at h2 ⊢; tauto
  · rw [versionPhase_skip env p tr h]
    intro q hq
    have h2 := collectPhaseSettings_trace env p tr hq
    simp at h2 ⊢; tauto

lemma relistPhase_mem_dbList (env : CollectEnv) (p : Postgres) (tr : List Query)
    (htr : Query.databaseList ∉ tr)
    (h : Query.databaseList ∈ (collectPhaseRelist env p tr).trace) :
    relistElapsed env p := by
  by_cases hr : relistElapsed env p
  · exact hr
  · exfalso
    rw [relistPhase_skip env p tr hr] at h
    have h2 := collectPhaseSteps_trace env p tr h
    simp [stepQueries] at h2
    exact htr h2

lemma settingsPhase_mem_dbList (env : CollectEnv) (p : Postgres) (tr : List Query)
    (htr : Query.databaseList ∉ tr)
    (h : Query.databaseList ∈ (collectPhaseSettings env p tr).trace) :
    relistElapsed env p := by
  by_cases hs : settingsElapsed env p
  · cases hv : env.querySettingsMaxConnections with
    | error e =>
      rw [settingsPhase_fail env p tr e hs hv] at h
      simp at h
      exact absurd h htr
    | ok v =>
      rw [settingsPhase_ok env p tr v hs hv] at h
      exact relistPhase_mem_dbList env
        { p with recheckSettingsTime := env.now, maxConnections := v }
        (tr ++ [Query.settingsMaxConnections]) (by simp [htr]) h
  · rw [settingsPhase_skip env p tr hs] at h
    exact relistPhase_mem_dbList env p tr htr h

lemma versionPhase_mem_dbList (env : CollectEnv) (p : Postgres) (tr : List Query)
    (htr : Query.databaseList ∉ tr)
    (h : Query.databaseList ∈ (collectPhaseVersion env p tr).trace) :
    relistElapsed env p := by
  by_cases hz : p.serverVersion = 0
  · cases hv : env.queryServerVersion with
    | error e =>
      rw [versionPhase_fail env p tr e hz hv] at h
      simp at h
      exact absurd h htr
    | ok v =>
      rw [versionPhase_ok env p tr v hz hv] at h
      exact settingsPhase_mem_dbList env { p with serverVersion := v }
        (tr ++ [Query.serverVersion]) (by simp [htr]) h
  · rw [versionPhase_skip env p tr hz] at h
    exact settingsPhase_mem_dbList env p tr htr h

lemma collect_mem_dbList (env : CollectEnv) (p : Postgres)
    (h : Query.databaseList ∈ (collect env p).trace) : relistElapsed env p := by
  by_cases hdb : p.dbOpen = true
  · rw [collect_sessionLive env p hdb] at h
    exact versionPhase_mem_dbList env p [] (by simp) h
  · replace hdb : p.dbOpen = false := by simpa using hdb
    cases ho : env.openConnection with
    | error e =>
      rw [collect_sessionFail env p e hdb ho] at h
      simp at h
    | ok u =>
      rw [collect_sessionNew env p hdb ho] at h
      exact versionPhase_mem_dbList env { p with dbOpen := true } [] (by simp) h

lemma settingsPhase_mem_settings (env : CollectEnv) (p : Postgres) (tr : List Query)
    (htr : Query.settingsMaxConnections ∉ tr)
    (h : Query.settingsMaxConnections ∈ (collectPhaseSettings env p tr).trace) :
    settingsElapsed env p := by
  by_cases hs : settingsElapsed env p
  · exact hs
  · exfalso
    rw [settingsPhase_skip env p tr hs] at h
    have h2 := collectPhaseRelist_trace env p tr h
    simp [stepQueries] at h2
    exact htr h2

lemma versionPhase_mem_settings (env : CollectEnv) (p : Postgres) (tr : List Query)
    (htr : Query.settingsMaxConnections ∉ tr)
    (h : Query.settingsMaxConnections ∈ (collectPhaseVersion env p tr).trace) :
    settingsElapsed env p := by
  by_cases hz : p.serverVersion = 0
  · cases hv : env.queryServerVersion with
    | error e =>
      rw [versionPhase_fail env p tr e hz hv] at h
      simp at h
      exact absurd h htr
    | ok v =>
      rw [versionPhase_ok env p tr v hz hv] at h
      exact settingsPhase_mem_settings env { p with serverVersion := v }
        (tr ++ [Query.serverVersion]) (by simp [htr]) h
  · rw [versionPhase_skip env p tr hz] at h
    exact settingsPhase_mem_settings env p tr htr h

lemma collect_mem_settings (env : CollectEnv) (p : Postgres)
    (h : Query.settingsMaxConnections ∈ (collect env p).trace) :
    settingsElapsed env p := by
  by_cases hdb : p.dbOpen = true
  · rw [collect_sessionLive env p hdb] at h
    exact versionPhase_mem_settings env p [] (by simp) h
  · replace hdb : p.dbOpen = false := by simpa using hdb
    cases ho : env.openConnection with
    | error e =>
      rw [collect_sessionFail env p e hdb ho] at h
      simp at h
    | ok u =>
      rw [collect_sessionNew env p hdb ho] at h
      exact versionPhase_mem_settings env { p with dbOpen := true } [] (by simp) h

lemma collect_mem_version (env : CollectEnv) (p : Postgres)
    (h : Query.serverVersion ∈ (collect env p).trace) : p.serverVersion = 0 := by
  by_cases hz : p.serverVersion = 0
  · exact hz
  · exfalso
    by_cases hdb : p.dbOpen = true
    · rw [collect_sessionLive env p hdb, versionPhase_skip env p [] hz] at h
      have h2 := collectPhaseSettings_trace env p [] h
      simp [stepQueries] at h2
    · replace hdb : p.dbOpen = false := by simpa using hdb
      cases ho : env.openConnection with
      | error e =>
        rw [collect_sessionFail env p e hdb ho] at h
        simp at h
      | ok u =>
        rw [collect_sessionNew env p hdb ho] at h
        rw [versionPhase_skip env { p with dbOpen := true } [] hz] at h
        have h2 := collectPhaseSettings_trace env { p with dbOpen := true } [] h
        simp [stepQueries] at h2

/-! #### Reach lemmas: under the pass conditions, collect lands in a phase -/

lemma postgres_dbOpen_eta (p : Postgres) (h : p.dbOpen = true) :
    { p with dbOpen := true } = p := by
  obtain ⟨d, sv, mc, rst, rse, rlt, rle, dbs, cs⟩ := p
  replace h : d = true := h
  subst h
  rfl

lemma collect_to_versionPhase (env : CollectEnv) (p : Postgres) (h1 : openOk env p) :
    collect env p = collectPhaseVersion env { p with dbOpen := true } [] := by
  by_cases hdb : p.dbOpen = true
  · rw [collect_sessionLive env p hdb, postgres_dbOpen_eta p hdb]
  · replace hdb : p.dbOpen = false := by simpa using hdb
    rcases h1 with h1 | h1
    · exact absurd h1 (by simp [hdb])
    · exact collect_sessionNew env p hdb h1

lemma collect_to_settingsPhase (env : CollectEnv) (p : Postgres)
    (h1 : openOk env p) (h2 : versionOk env p) :
    ∃ (sv : Int) (tr0 : List Query),
      collect env p =
        collectPhaseSettings env { p with dbOpen := true, serverVersion := sv } tr0 := by
  rw [collect_to_versionPhase env p h1]
  by_cases hz : ({ p with dbOpen := true } : Postgres).serverVersion = 0
  · rcases h2 with h2 | h2
    · exact absurd hz h2
    · cases hv : env.queryServerVersion with
      | error e => rw [hv] at h2; simp [Except.isOk, Except.toBool] at h2
      | ok v =>
        exact ⟨v, [Query.serverVersion],
          versionPhase_ok env { p with dbOpen := true } [] v hz hv⟩
  · refine ⟨p.serverVersion, [], ?_⟩
    exact versionPhase_skip env { p with dbOpen := true } [] hz

/-! #### Lemmas about the parse primitives -/

lemma parseUintLoop_syntaxErr :
    ∀ (cs : List Char) (n : Nat),
      (parseUintLoop cs n).2 = some NumError.syntaxErr → (parseUintLoop cs n).1 = 0 := by
  intro cs
  induction cs with
  | nil => intro n h; simp [parseUintLoop] at h
  | cons c rest ih =>
    intro n h
    simp only [parseUintLoop] at h ⊢
    by_cases hd : '0' ≤ c ∧ c ≤ '9'
    · rw [if_pos hd] at h ⊢
      by_cases hc : goUintCutoff ≤ n
      · rw [if_pos hc] at h; simp at h
      · rw [if_neg hc] at h ⊢
        by_cases hm : goMaxUint64 < n * 10 + (c.toNat - 48)
        · rw [if_pos hm] at h; simp at h
        · rw [if_neg hm] at h ⊢; exact ih _ h
    · rw [if_neg hd] at h ⊢

lemma parseUintLoop_rangeErr :
    ∀ (cs : List Char) (n : Nat),
      (parseUintLoop cs n).2 = some NumError.rangeErr →
        (parseUintLoop cs n).1 = goMaxUint64 := by
  intro cs
  induction cs with
  | nil => intro n h; simp [parseUintLoop] at h
  | cons c rest ih =>
    intro n h
    simp only [parseUintLoop] at h ⊢
    by_cases hd : '0' ≤ c ∧ c ≤ '9'
    · rw [if_pos hd] at h ⊢
      by_cases hc : goUintCutoff ≤ n
      · rw [if_pos hc] at h ⊢
      · rw [if_neg hc] at h ⊢
        by_cases hm : goMaxUint64 < n * 10 + (c.toNat - 48)
        · rw [if_pos hm] at h ⊢
        · rw [if_neg hm] at h ⊢; exact ih _ h
    · rw [if_neg hd] at h; simp at h

lemma parseUint64_rangeErr (cs : List Char)
    (h : (parseUint64 cs).2 = some NumError.rangeErr) :
    (parseUint64 cs).1 = goMaxUint64 := by
  unfold parseUint64 at h ⊢
  by_cases he : cs = []
  · rw [if_pos he] at h; simp at h
  · rw [if_neg he] at h ⊢; exact parseUintLoop_rangeErr cs 0 h

lemma applyIntCutoffs_syntaxErr (neg : Bool) (r : Nat × Option NumError)
    (h : (applyIntCutoffs neg r).2 = some NumError.syntaxErr) :
    (applyIntCutoffs neg r).1 = 0 := by
  unfold applyIntCutoffs at h ⊢
  split at h
  · rename_i h1; rw [if_pos h1]
  · rename_i h1
    rw [if_neg h1]
    split at h
    · simp at h
    · rename_i h2
      rw [if_neg h2]
      split at h
      · simp at h
      · rename_i h3
        rw [if_neg h3]
        exact absurd h h1

lemma applyIntCutoffs_rangeErr (neg : Bool) (r : Nat × Option NumError)
    (hmax : r.2 = some NumError.rangeErr → r.1 = goMaxUint64)
    (h : (applyIntCutoffs neg r).2 = some NumError.rangeErr) :
    (applyIntCutoffs neg r).1 = 2 ^ 63 - 1 ∨ (applyIntCutoffs neg r).1 = -(2 ^ 63) := by
  unfold applyIntCutoffs at h ⊢
  split at h
  · simp at h
  · rename_i h1
    rw [if_neg h1]
    split at h
    · rename_i h2; rw [if_pos h2]; left; rfl
    · rename_i h2
      rw [if_neg h2]
      split at h
      · rename_i h3; rw [if_pos h3]; right; rfl
      · rename_i h3
        exfalso
        have hr1 := hmax h
        cases neg with
        | false => exact h2 ⟨rfl, by rw [hr1]; decide⟩
        | true => exact h3 ⟨rfl, by rw [hr1]; decide⟩

lemma parseInt64Core_syntaxErr (cs : List Char)
    (h : (parseInt64Core cs).2 = some NumError.syntaxErr) :
    (parseInt64Core cs).1 = 0 := by
  cases cs with
  | nil => rfl
  | cons c rest =>
    simp only [parseInt64Core] at h ⊢
    exact applyIntCutoffs_syntaxErr _ _ h

lemma parseInt64Core_rangeErr (cs : List Char)
    (h : (parseInt64Core cs).2 = some NumError.rangeErr) :
    (parseInt64Core cs).1 = 2 ^ 63 - 1 ∨ (parseInt64Core cs).1 = -(2 ^ 63) := by
  cases cs with
  | nil => simp [parseInt64Core] at h
  | cons c rest =>
    simp only [parseInt64Core] at h ⊢
    exact applyIntCutoffs_rangeErr _ _ (parseUint64_rangeErr _) h

/--
**C4, counterexample.**  The claim says every value that fails to parse as a
base-10 64-bit integer yields zero, but `strconv.ParseInt` clamps an
out-of-range value to the extreme of its sign and `safeParseInt` keeps that
clamped value: `safeParseInt "9223372036854775808"` is `MaxInt64`, not 0,
although the parse fails with a range error.
-/
theorem c4_counterexample :
    (parseInt64 "9223372036854775808").2 = some NumError.rangeErr ∧
    safeParseInt "9223372036854775808" ≠ 0 ∧
    safeParseInt "9223372036854775808" = 9223372036854775807 := by decide

/--
**C4, amended.**  `safeParseInt` is total (it is a Lean function), a value
whose parse fails for a syntax reason yields zero, a value whose parse fails
for a range reason yields the clamped 64-bit extreme rather than zero, and
the three examples of the claim hold: `""` and `"abc"` give 0, `"123"`
gives 123.
-/
theorem c4_amended (s : String) :
    ((parseInt64 s).2 = some NumError.syntaxErr → safeParseInt s = 0) ∧
    ((parseInt64 s).2 = some NumError.rangeErr →
      safeParseInt s = 2 ^ 63 - 1 ∨ safeParseInt s = -(2 ^ 63)) ∧
    safeParseInt "" = 0 ∧ safeParseInt "abc" = 0 ∧ safeParseInt "123" = 123 := by
  refine ⟨?_, ?_, by decide, by decide, by decide⟩
  · intro h
    exact parseInt64Core_syntaxErr s.data h
  · intro h
    exact parseInt64Core_rangeErr s.data h

/-- **C4, amended, witness** at the concrete inputs of the claim. -/
theorem c4_amended_witness :
    safeParseInt "" = 0 ∧ safeParseInt "abc" = 0 ∧ safeParseInt "123" = 123 :=
  ⟨(c4_amended "").2.2.1, (c4_amended "abc").2.2.2.1, (c4_amended "123").2.2.2.2⟩

/--
**C5, counterexample.**  The claim quantifies over all `int64` inputs, but
for a negative `total` the code divides by `total` itself while the claimed
formula divides by `max(total, 1)`: at `value = 1`, `total = -1` the code
yields `-100` and the claimed formula yields `100`.
-/
theorem c5_counterexample :
    calcPercentage 1 (-1) = -100 ∧ specCalcPercentage 1 (-1) = 100 ∧
    calcPercentage 1 (-1) ≠ specCalcPercentage 1 (-1) := by decide

/--
**C5, amended.**  For every non-negative `total` (the only shape the callers
produce: a connection limit) the code agrees with the claimed formula
`value * 100 / max(total, 1)` with a zero denominator producing zero, and the
three examples of the claim hold.
-/
theorem c5_amended (value total : Int) (h : 0 ≤ total) :
    calcPercentage value total = specCalcPercentage value total ∧
    calcPercentage 0 0 = 0 ∧ calcPercentage 3 100 = 3 ∧ calcPercentage 97 0 = 0 := by
  refine ⟨?_, by decide, by decide, by decide⟩
  by_cases ht : total = 0
  · simp [calcPercentage, specCalcPercentage, ht]
  · have h1 : (1 : Int) ≤ total := by omega
    simp [calcPercentage, specCalcPercentage, ht, max_eq_left h1]

/-- **C5, amended, witness** at `value = 3`, `total = 100`. -/
theorem c5_amended_witness :
    calcPercentage 3 100 = specCalcPercentage 3 100 ∧ calcPercentage 3 100 = 3 :=
  ⟨(c5_amended 3 100 (by decide)).1, (c5_amended 3 100 (by decide)).2.2.1⟩

/-! ### C8: the row flattener contract -/

lemma collectRowsLoop_allOk (f : Snapshot → String → String → Snapshot)
    (cols : List String) :
    ∀ (rowvals : List (List (Option String))) (mx : Snapshot),
      collectRowsLoop f cols (rowvals.map Except.ok) mx =
        ((rowvals.flatMap (fun row => cols.zip row)).foldl
          (fun m cv => f m cv.1 (valueToString cv.2)) mx, none) := by
  intro rowvals
  induction rowvals with
  | nil => intro mx; rfl
  | cons row rest ih =>
    intro mx
    simp only [List.map_cons, collectRowsLoop, List.flatMap_cons, List.foldl_append]
    exact ih _

lemma collectRowsLoop_scanErr (f : Snapshot → String → String → Snapshot)
    (cols : List String) (e : String)
    (post : List (Except String (List (Option String)))) :
    ∀ (pre : List (List (Option String))) (mx : Snapshot),
      collectRowsLoop f cols (pre.map Except.ok ++ Except.error e :: post) mx =
        ((pre.flatMap (fun row => cols.zip row)).foldl
          (fun m cv => f m cv.1 (valueToString cv.2)) mx, some e) := by
  intro pre
  induction pre with
  | nil => intro mx; rfl
  | cons row rest ih =>
    intro mx
    simp only [List.map_cons, List.cons_append, collectRowsLoop, List.flatMap_cons,
      List.foldl_append]
    exact ih _

/--
**C8, counterexample.**  The claim says any row-iteration failure is
returned to the caller as an error.  But `collectRows` (collect.go lines
143-151) only returns the errors of `Columns()` and `Scan`; it never calls
`rows.Err()`, so an iteration failure that ends `rows.Next()` — a driver
error or the per-query deadline expiring mid-iteration — is treated as a
clean end of rows.  Concretely, a result set whose iteration stops after one
row with the pending error `mock error` makes `collectRows` (and the
`collectCheckpoints` caller) report success, keeping the assignments made so
far and surfacing no error.
-/
theorem c8_counterexample :
    (⟨Except.ok ["checkpoints_timed"], [Except.ok [some "1814"]],
        some "mock error"⟩ : Rows).rowsErr ≠ none ∧
    collectRows (some assignParsed)
      ⟨Except.ok ["checkpoints_timed"], [Except.ok [some "1814"]],
        some "mock error"⟩ [] =
      ([("checkpoints_timed", 1814)], none) ∧
    collectCheckpoints
      (Except.ok ⟨Except.ok ["checkpoints_timed"], [Except.ok [some "1814"]],
        some "mock error"⟩) [] =
      ([("checkpoints_timed", 1814)], none) := by decide

/--
**C8, amended.**  The row flattener: (1) whatever iteration error is pending
in `rows.Err()`, the callback is applied once per column of every scanned
row, in order, with the column name and the textual value (`""` for a
database null), and the pending iteration error is silently swallowed — the
result is a success regardless of `rowsErr`; (2) each row contributes exactly
`cols.length` invocations; (3) a `Columns()` failure is returned as an error
before any callback runs; (4) a `Scan` failure at any row is returned as an
error, keeping the assignments of the rows already read; (5) a
query-execution failure in `collectCheckpoints` is returned to the caller as
an error with the shared map untouched.
-/
theorem c8_amended (f : Snapshot → String → String → Snapshot) (mx : Snapshot)
    (cols : List String) (rowvals : List (List (Option String)))
    (hlen : ∀ row ∈ rowvals, row.length = cols.length) :
    (∀ re : Option String,
      collectRows (some f) ⟨Except.ok cols, rowvals.map Except.ok, re⟩ mx =
        ((rowvals.flatMap (fun row => cols.zip row)).foldl
          (fun m cv => f m cv.1 (valueToString cv.2)) mx, none)) ∧
    (∀ row ∈ rowvals, (cols.zip row).length = cols.length) ∧
    (∀ e rd re, collectRows (some f) ⟨Except.error e, rd, re⟩ mx = (mx, some e)) ∧
    (∀ (e : String) (pre : List (List (Option String)))
        (post : List (Except String (List (Option String)))) (re : Option String),
      collectRows (some f)
        ⟨Except.ok cols, pre.map Except.ok ++ Except.error e :: post, re⟩ mx =
      ((pre.flatMap (fun row => cols.zip row)).foldl
        (fun m cv => f m cv.1 (valueToString cv.2)) mx, some e)) ∧
    (∀ e mx0, collectCheckpoints (Except.error e) mx0 = (mx0, some e)) := by
  refine ⟨?_, ?_, ?_, ?_, ?_⟩
  · intro re
    simp only [collectRows]
    exact collectRowsLoop_allOk f cols rowvals mx
  · intro row hrow
    rw [List.length_zip, hlen row hrow, Nat.min_self]
  · intro e rd re; rfl
  · intro e pre post re
    simp only [collectRows]
    exact collectRowsLoop_scanErr f cols e post pre mx
  · intro e mx0; rfl

/-- **C8, amended, witness**: the flattener applied to a concrete two-column,
two-row result set with a null in the second row and a pending iteration
error that is swallowed. -/
theorem c8_amended_witness :
    collectRows (some assignParsed)
      ⟨Except.ok ["checkpoints_timed", "checkpoints_req"],
       ([[some "1814", some "16"], [none, some "7"]] :
         List (List (Option String))).map Except.ok,
       some "mock error"⟩ [] =
      ([("checkpoints_timed", 0), ("checkpoints_req", 7)], none) := by
  have h := (c8_amended assignParsed []
    ["checkpoints_timed", "checkpoints_req"]
    [[some "1814", some "16"], [none, some "7"]] (by decide)).1 (some "mock error")
  rw [h]
  decide

/-! ### Concrete cycle fixtures

One environment in which every query succeeds (values follow the v14.4 test
fixtures of the repository), and variants in which a single query fails. -/

/-- A concrete checkpoints result set (one row, `pg_stat_bgwriter` shape). -/
def ckptRows : Rows :=
  ⟨Except.ok ["checkpoints_timed", "checkpoints_req", "checkpoint_write_time",
      "checkpoint_sync_time", "buffers_checkpoint", "buffers_clean",
      "maxwritten_clean", "buffers_backend", "buffers_backend_fsync", "buffers_alloc"],
   [Except.ok [some "1814", some "16", some "167", some "47", some "32768",
      some "0", some "0", some "0", some "0", some "27295744"]],
   none⟩

/-- An environment in which every query of the cycle succeeds. -/
def envAllOk : CollectEnv :=
  { openConnection := Except.ok ()
    now := 100
    queryServerVersion := Except.ok 140004
    querySettingsMaxConnections := Except.ok 100
    queryDatabaseList := Except.ok ["postgres", "production"]
    connectionStep :=
      ⟨[("server_connections_utilization", 3), ("server_connections_used", 3),
        ("server_connections_available", 97)], none⟩
    checkpointsRows := Except.ok ckptRows
    databaseStatsStep :=
      ⟨[("db_postgres_xact_commit", 1438660), ("db_production_xact_commit", 0)], none⟩
    databaseConflictsStep :=
      ⟨[("db_postgres_conflicts", 0), ("db_production_conflicts", 0)], none⟩
    databaseLocksStep :=
      ⟨[("db_postgres_lock_mode_AccessShareLock_held", 1)], none⟩ }

/-- A collector state with a live session, a cached version and both refresh
windows closed at `now = 100`. -/
def pgReady : Postgres :=
  { dbOpen := true, serverVersion := 140004, maxConnections := 100,
    recheckSettingsTime := 100, recheckSettingsEvery := 600,
    relistDatabaseTime := 100, relistDatabaseEvery := 600,
    databases := ["postgres", "production"], charts := baseCharts }

/-- The all-ok environment with the 4th collection step (conflicts) failing. -/
def envConflictsFail : CollectEnv :=
  { envAllOk with databaseConflictsStep := ⟨[], some "mock error"⟩ }

/-- The all-ok environment with the checkpoints query failing. -/
def envCheckpointsFail : CollectEnv :=
  { envAllOk with checkpointsRows := Except.error "mock error" }

/-- The all-ok environment at `now = 800` (both windows elapsed) with the
settings query failing. -/
def envSettingsFail : CollectEnv :=
  { envAllOk with
    now := 800
    querySettingsMaxConnections := Except.error "mock error" }

/-- The all-ok environment at `now = 800` (both windows elapsed) with the
database-list query failing. -/
def envRelistFail : CollectEnv :=
  { envAllOk with
    now := 800
    queryDatabaseList := Except.error "mock error" }

/-! ### C6: the one-time version probe -/

/--
**C6.**  In every cycle that starts with a non-zero cached server version,
`collect` never issues the version query, and the cached version is not
mutated by the cycle.
-/
theorem c6_version_probe (env : CollectEnv) (p : Postgres) (h : p.serverVersion ≠ 0) :
    Query.serverVersion ∉ (collect env p).trace ∧
    (collect env p).state.serverVersion = p.serverVersion := by
  constructor
  · intro hmem
    exact h (collect_mem_version env p hmem)
  · by_cases hdb : p.dbOpen = true
    · rw [collect_sessionLive env p hdb, versionPhase_skip env p [] h]
      exact (collectPhaseSettings_state_fields env p []).2.1
    · replace hdb : p.dbOpen = false := by simpa using hdb
      cases ho : env.openConnection with
      | error e => rw [collect_sessionFail env p e hdb ho]
      | ok u =>
        cases u
        rw [collect_sessionNew env p hdb ho,
          versionPhase_skip env { p with dbOpen := true } [] h]
        exact (collectPhaseSettings_state_fields env { p with dbOpen := true } []).2.1

/-- **C6, witness** on the concrete ready state. -/
theorem c6_version_probe_witness :
    Query.serverVersion ∉ (collect envAllOk pgReady).trace ∧
    (collect envAllOk pgReady).state.serverVersion = pgReady.serverVersion :=
  c6_version_probe envAllOk pgReady (by decide)

/-! ### C7: the settings refresh window -/

lemma collect_to_relistPhase (env : CollectEnv) (p : Postgres)
    (h1 : openOk env p) (h2 : versionOk env p) (h3 : settingsOk env p) :
    ∃ (sv mc rt : Int) (tr0 : List Query),
      collect env p =
        collectPhaseRelist env
          { p with dbOpen := true, serverVersion := sv, maxConnections := mc,
                   recheckSettingsTime := rt } tr0 := by
  obtain ⟨sv, tr0, hcol⟩ := collect_to_settingsPhase env p h1 h2
  by_cases hs : settingsElapsed env p
  · rcases h3 with h3 | h3
    · exact absurd hs h3
    · cases hv : env.querySettingsMaxConnections with
      | error e => rw [hv] at h3; simp [Except.isOk, Except.toBool] at h3
      | ok v =>
        refine ⟨sv, v, env.now, tr0 ++ [Query.settingsMaxConnections], ?_⟩
        rw [hcol,
          settingsPhase_ok env { p with dbOpen := true, serverVersion := sv } tr0 v hs hv]
  · refine ⟨sv, p.maxConnections, p.recheckSettingsTime, tr0, ?_⟩
    rw [hcol,
      settingsPhase_skip env { p with dbOpen := true, serverVersion := sv } tr0 hs]

lemma settingsPhase_state_noRefresh (env : CollectEnv) (p : Postgres) (tr : List Query)
    (h : ¬ settingsElapsed env p) :
    (collectPhaseSettings env p tr).state.maxConnections = p.maxConnections ∧
    (collectPhaseSettings env p tr).state.recheckSettingsTime = p.recheckSettingsTime := by
  rw [settingsPhase_skip env p tr h]
  obtain ⟨_, _, h3, h4, _, _⟩ := collectPhaseRelist_state_fields env p tr
  exact ⟨h3, h4⟩

lemma versionPhase_state_noRefresh (env : CollectEnv) (p : Postgres) (tr : List Query)
    (h : ¬ settingsElapsed env p) :
    (collectPhaseVersion env p tr).state.maxConnections = p.maxConnections ∧
    (collectPhaseVersion env p tr).state.recheckSettingsTime = p.recheckSettingsTime := by
  by_cases hz : p.serverVersion = 0
  · cases hv : env.queryServerVersion with
    | error e => rw [versionPhase_fail env p tr e hz hv]; exact ⟨rfl, rfl⟩
    | ok v =>
      rw [versionPhase_ok env p tr v hz hv]
      exact settingsPhase_state_noRefresh env { p with serverVersion := v }
        (tr ++ [Query.serverVersion]) h
  · rw [versionPhase_skip env p tr hz]
    exact settingsPhase_state_noRefresh env p tr h

lemma collect_state_noRefresh (env : CollectEnv) (p : Postgres)
    (h : ¬ settingsElapsed env p) :
    (collect env p).state.maxConnections = p.maxConnections ∧
    (collect env p).state.recheckSettingsTime = p.recheckSettingsTime := by
  by_cases hdb : p.dbOpen = true
  · rw [collect_sessionLive env p hdb]
    exact versionPhase_state_noRefresh env p [] h
  · replace hdb : p.dbOpen = false := by simpa using hdb
    cases ho : env.openConnection with
    | error e => rw [collect_sessionFail env p e hdb ho]; exact ⟨rfl, rfl⟩
    | ok u =>
      cases u
      rw [collect_sessionNew env p hdb ho]
      exact versionPhase_state_noRefresh env { p with dbOpen := true } [] h

/--
**C7.**  The settings refresh: (1) the settings query is issued only when the
refresh window has elapsed; (2) inside the window the cycle is a no-op for
the cache — the cached value and the timestamp survive and no settings query
is issued; (3) when the window has elapsed and the query succeeds, the cached
value and the timestamp are updated; (4) when the window has elapsed and the
query fails, the previous cached value is untouched and the error is
propagated, aborting the cycle with no map.
-/
theorem c7_settings_window (env : CollectEnv) (p : Postgres) :
    (Query.settingsMaxConnections ∈ (collect env p).trace → settingsElapsed env p) ∧
    (¬ settingsElapsed env p →
      (collect env p).state.maxConnections = p.maxConnections ∧
      (collect env p).state.recheckSettingsTime = p.recheckSettingsTime ∧
      Query.settingsMaxConnections ∉ (collect env p).trace) ∧
    (∀ v : Int, openOk env p → versionOk env p → settingsElapsed env p →
      env.querySettingsMaxConnections = Except.ok v →
      (collect env p).state.maxConnections = v ∧
      (collect env p).state.recheckSettingsTime = env.now) ∧
    (∀ e : String, openOk env p → versionOk env p → settingsElapsed env p →
      env.querySettingsMaxConnections = Except.error e →
      (collect env p).state.maxConnections = p.maxConnections ∧
      (collect env p).mx = none ∧
      (collect env p).errMsg =
        some (wrapErr "querying settings max connections error" e)) := by
  refine ⟨collect_mem_settings env p, ?_, ?_, ?_⟩
  · intro h
    exact ⟨(collect_state_noRefresh env p h).1, (collect_state_noRefresh env p h).2,
      fun hmem => h (collect_mem_settings env p hmem)⟩
  · intro v h1 h2 hs hv
    obtain ⟨sv, tr0, hcol⟩ := collect_to_settingsPhase env p h1 h2
    rw [hcol,
      settingsPhase_ok env { p with dbOpen := true, serverVersion := sv } tr0 v hs hv]
    obtain ⟨_, _, h3, h4, _, _⟩ := collectPhaseRelist_state_fields env
      { p with dbOpen := true, serverVersion := sv,
               recheckSettingsTime := env.now, maxConnections := v }
      (tr0 ++ [Query.settingsMaxConnections])
    exact ⟨h3, h4⟩
  · intro e h1 h2 hs hv
    obtain ⟨sv, tr0, hcol⟩ := collect_to_settingsPhase env p h1 h2
    rw [hcol,
      settingsPhase_fail env { p with dbOpen := true, serverVersion := sv } tr0 e hs hv]
    exact ⟨rfl, rfl, rfl⟩

/-- **C7, witness**: a concrete elapsed-window cycle whose settings query
fails keeps the cached value, returns no map and surfaces the settings
error. -/
theorem c7_settings_window_witness :
    (collect envSettingsFail pgReady).state.maxConnections = pgReady.maxConnections ∧
    (collect envSettingsFail pgReady).mx = none ∧
    (collect envSettingsFail pgReady).errMsg =
      some (wrapErr "querying settings max connections error" "mock error") :=
  (c7_settings_window envSettingsFail pgReady).2.2.2 "mock error"
    (Or.inl rfl) (Or.inl (by decide)) (by decide) rfl

/-! ### C10: a failed refresh still consumes its window -/

/--
**C10.**  Both refresh timestamps are advanced before their query is issued,
so a failed settings refresh or inventory relist still consumes its window:
the failing cycle leaves the timestamp at the current time and returns no
map, and any subsequent cycle that starts within the configured interval of
that moment does not issue the failed query again.
-/
theorem c10_window_consumed (env : CollectEnv) (p : Postgres) :
    (∀ e : String, openOk env p → versionOk env p → settingsElapsed env p →
      env.querySettingsMaxConnections = Except.error e →
      (collect env p).state.recheckSettingsTime = env.now ∧
      (collect env p).mx = none ∧
      (∀ env2 : CollectEnv, env2.now - env.now ≤ p.recheckSettingsEvery →
        Query.settingsMaxConnections ∉ (collect env2 (collect env p).state).trace)) ∧
    (∀ e : String, openOk env p → versionOk env p → settingsOk env p →
      relistElapsed env p → env.queryDatabaseList = Except.error e →
      (collect env p).state.relistDatabaseTime = env.now ∧
      (collect env p).mx = none ∧
      (∀ env2 : CollectEnv, env2.now - env.now ≤ p.relistDatabaseEvery →
        Query.databaseList ∉ (collect env2 (collect env p).state).trace)) := by
  constructor
  · intro e h1 h2 hs hv
    obtain ⟨sv, tr0, hcol⟩ := collect_to_settingsPhase env p h1 h2
    rw [hcol,
      settingsPhase_fail env { p with dbOpen := true, serverVersion := sv } tr0 e hs hv]
    refine ⟨rfl, rfl, ?_⟩
    intro env2 hle hmem
    have hel : env2.now - env.now > p.recheckSettingsEvery :=
      collect_mem_settings env2 _ hmem
    omega
  · intro e h1 h2 h3 hr hd
    obtain ⟨sv, mc, rt, tr0, hcol⟩ := collect_to_relistPhase env p h1 h2 h3
    rw [hcol,
      relistPhase_fail env
        { p with dbOpen := true, serverVersion := sv, maxConnections := mc,
                 recheckSettingsTime := rt } tr0 e hr hd]
    refine ⟨rfl, rfl, ?_⟩
    intro env2 hle hmem
    have hel : env2.now - env.now > p.relistDatabaseEvery :=
      collect_mem_dbList env2 _ hmem
    omega

/-- **C10, witness**: both failing-refresh cycles advance their timestamps to
the current time (800) and return no map. -/
theorem c10_window_consumed_witness :
    (collect envSettingsFail pgReady).state.recheckSettingsTime = 800 ∧
    (collect envSettingsFail pgReady).mx = none ∧
    (collect envRelistFail pgReady).state.relistDatabaseTime = 800 ∧
    (collect envRelistFail pgReady).mx = none :=
  ⟨((c10_window_consumed envSettingsFail pgReady).1 "mock error"
      (Or.inl rfl) (Or.inl (by decide)) (by decide) rfl).1,
   ((c10_window_consumed envSettingsFail pgReady).1 "mock error"
      (Or.inl rfl) (Or.inl (by decide)) (by decide) rfl).2.1,
   ((c10_window_consumed envRelistFail pgReady).2 "mock error"
      (Or.inl rfl) (Or.inl (by decide)) (Or.inr (by decide)) (by decide) rfl).1,
   ((c10_window_consumed envRelistFail pgReady).2 "mock error"
      (Or.inl rfl) (Or.inl (by decide)) (Or.inr (by decide)) (by decide) rfl).2.1⟩

/-! ### C1 and C3: what a failing cycle returns -/

lemma relistPhase_mxErr (env : CollectEnv) (p : Postgres) (tr : List Query)
    (h : (collectPhaseRelist env p tr).mx = none) :
    (collectPhaseRelist env p tr).errMsg ≠ none := by
  by_cases hr : relistElapsed env p
  · cases hd : env.queryDatabaseList with
    | error e => rw [relistPhase_fail env p tr e hr hd]; simp
    | ok dbs =>
      rw [relistPhase_ok env p tr dbs hr hd] at h
      exact absurd h (collectPhaseSteps_mx env _ _)
  · rw [relistPhase_skip env p tr hr] at h
    exact absurd h (collectPhaseSteps_mx env p tr)

lemma settingsPhase_mxErr (env : CollectEnv) (p : Postgres) (tr : List Query)
    (h : (collectPhaseSettings env p tr).mx = none) :
    (collectPhaseSettings env p tr).errMsg ≠ none := by
  by_cases hs : settingsElapsed env p
  · cases hv : env.querySettingsMaxConnections with
    | error e => rw [settingsPhase_fail env p tr e hs hv]; simp
    | ok v =>
      rw [settingsPhase_ok env p tr v hs hv] at h ⊢
      exact relistPhase_mxErr env _ _ h
  · rw [settingsPhase_skip env p tr hs] at h ⊢
    exact relistPhase_mxErr env p tr h

lemma versionPhase_mxErr (env : CollectEnv) (p : Postgres) (tr : List Query)
    (h : (collectPhaseVersion env p tr).mx = none) :
    (collectPhaseVersion env p tr).errMsg ≠ none := by
  by_cases hz : p.serverVersion = 0
  · cases hv : env.queryServerVersion with
    | error e => rw [versionPhase_fail env p tr e hz hv]; simp
    | ok v =>
      rw [versionPhase_ok env p tr v hz hv] at h ⊢
      exact settingsPhase_mxErr env _ _ h
  · rw [versionPhase_skip env p tr hz] at h ⊢
    exact settingsPhase_mxErr env p tr h

lemma collect_mxErr (env : CollectEnv) (p : Postgres)
    (h : (collect env p).mx = none) : (collect env p).errMsg ≠ none := by
  by_cases hdb : p.dbOpen = true
  · rw [collect_sessionLive env p hdb] at h ⊢
    exact versionPhase_mxErr env p [] h
  · replace hdb : p.dbOpen = false := by simpa using hdb
    cases ho : env.openConnection with
    | error e => rw [collect_sessionFail env p e hdb ho]; simp
    | ok u =>
      cases u
      rw [collect_sessionNew env p hdb ho] at h ⊢
      exact versionPhase_mxErr env _ [] h

/--
**C1, counterexample.**  The claim says a failing collection step makes
`collect()` return no Snapshot.  In the code, `collect()` returns
`mx, fmt.Errorf(...)` — the shared map as populated by the steps that ran
before the failure.  Concretely, with the first three steps succeeding and
the 4th (conflicts) failing, the returned map is present and still holds
`server_connections_used = 3` written by the first step.
-/
theorem c1_counterexample :
    (collect envConflictsFail pgReady).errMsg =
      some "querying database conflicts error: mock error" ∧
    (collect envConflictsFail pgReady).mx ≠ none ∧
    lookupSnap ((collect envConflictsFail pgReady).mx.getD []) "server_connections_used" =
      some 3 := by decide

/--
**C1, amended.**  Once the collection steps are reached the returned map is
always present — on a step failure it is the partially populated map, not an
absent one — and the returned error is `nil` exactly when all five steps
succeed.  The cycle returns no map only when a phase before the collection
steps fails (connection open, version probe, settings refresh, inventory
relist), and then always together with an error.
-/
theorem c1_amended (env : CollectEnv) (p : Postgres) (tr : List Query) :
    (collectPhaseSteps env p tr).mx ≠ none ∧
    ((collectPhaseSteps env p tr).errMsg = none ↔
      (env.connectionStep.failure = none ∧
       checkpointsFailure env.checkpointsRows = none ∧
       env.databaseStatsStep.failure = none ∧
       env.databaseConflictsStep.failure = none ∧
       env.databaseLocksStep.failure = none)) ∧
    ((collect env p).mx = none → (collect env p).errMsg ≠ none) :=
  ⟨collectPhaseSteps_mx env p tr, collectPhaseSteps_errMsg_none env p tr,
   collect_mxErr env p⟩

/-- **C1, amended, witness**: the steps phase of the concrete failing cycle
returns a present (partially populated) map. -/
theorem c1_amended_witness :
    (collectPhaseSteps envConflictsFail pgReady []).mx ≠ none :=
  (c1_amended envConflictsFail pgReady []).1

/--
**C3 (code bug).**  collect.go line 55 wraps a `collectCheckpoints` failure
in the message `querying database conflicts error`, the label of the
conflicts step (line 65), instead of a checkpoints label: with every other
query succeeding and the checkpoints query failing with `mock error`, the
cycle reports `querying database conflicts error: mock error` although the
conflicts step itself never failed.
-/
theorem c3_checkpoints_mislabel :
    envCheckpointsFail.databaseConflictsStep.failure = none ∧
    checkpointsFailure envCheckpointsFail.checkpointsRows = some "mock error" ∧
    (collect envCheckpointsFail pgReady).errMsg =
      some "querying database conflicts error: mock error" := by decide
